import Mathlib

/-!
Verification of the geekmagic display-board scripts.

The development shallowly embeds the three Python modules of the repository:

* the transit-departures pipeline (normalizer plus renderer),
* the task-list pipeline (normalizer plus renderer),
* the image uploader.

Python strings are modelled as Lean strings; Python string primitives that the
code relies on (lower, slicing, lexicographic comparison by code point) are
given explicit list-of-characters implementations so that every definition
evaluates inside the kernel.  Machine integers are modelled as Int (Python
integers are unbounded).  Fallible code returns Option: a value of none marks
an uncaught Python exception.  The renderers are embedded as pure functions
from a display-row list and an environment (frozen clock string, font
availability, text-metrics oracle) to the list of drawing commands issued on
the 240 by 240 canvas.
-/

/-- Lowercase one character, as Python str.lower does on the ASCII range
(the payloads handled by the scripts are modelled over that range). -/
def pyLowerChar (c : Char) : Char :=
  if 'A' ≤ c ∧ c ≤ 'Z' then Char.ofNat (c.toNat + 32) else c

/-- Python str.lower, modelled characterwise. -/
def pyLower (s : String) : String := ⟨s.data.map pyLowerChar⟩

/-- Lexicographic comparison of character lists by code point, the order
Python uses to compare strings. -/
def charListLe : List Char → List Char → Bool
  | [], _ => true
  | _ :: _, [] => false
  | a :: as, b :: bs =>
    if a.toNat < b.toNat then true
    else if a.toNat = b.toNat then charListLe as bs
    else false

/-- Python string comparison (less-or-equal). -/
def strLe (a b : String) : Bool := charListLe a.data b.data

/-- Python slicing s[:n], counted in characters. -/
def pyTake (s : String) (n : Nat) : String := ⟨s.data.take n⟩

/-- Zero-padded two-digit rendering of a field, as strftime %H or %M. -/
def pad2 (n : Nat) : String := if n < 10 then "0" ++ toString n else toString n

theorem charListLe_total : ∀ a b : List Char, charListLe a b = true ∨ charListLe b a = true := by
  intro a
  induction a with
  | nil => intro b; left; rfl
  | cons c cs ih =>
    intro b
    cases b with
    | nil => right; rfl
    | cons d ds =>
      rcases Nat.lt_trichotomy c.toNat d.toNat with h | h | h
      · left; simp [charListLe, h]
      · rcases ih ds with h2 | h2
        · left; simp [charListLe, h, h2]
        · right; simp [charListLe, h.symm, h2]
      · right; simp [charListLe, h]

theorem charListLe_trans : ∀ a b c : List Char,
    charListLe a b = true → charListLe b c = true → charListLe a c = true := by
  intro a
  induction a with
  | nil => intro b c _ _; rfl
  | cons x xs ih =>
    intro b c hab hbc
    cases b with
    | nil => simp [charListLe] at hab
    | cons y ys =>
      cases c with
      | nil => simp [charListLe] at hbc
      | cons z zs =>
        simp only [charListLe] at hab hbc ⊢
        by_cases h1 : x.toNat < y.toNat
        · by_cases h2 : y.toNat < z.toNat
          · have : x.toNat < z.toNat := Nat.lt_trans h1 h2
            simp [this]
          · simp only [h2, if_false, if_neg] at hbc
            by_cases h3 : y.toNat = z.toNat
            · have : x.toNat < z.toNat := h3 ▸ h1
              simp [this]
            · simp [h2, h3] at hbc
        · simp only [h1, if_neg, if_false] at hab
          by_cases h1e : x.toNat = y.toNat
          · simp only [h1e, if_true, if_pos] at hab
            by_cases h2 : y.toNat < z.toNat
            · have : x.toNat < z.toNat := h1e ▸ h2
              simp [this]
            · simp only [h2, if_false, if_neg] at hbc
              by_cases h3 : y.toNat = z.toNat
              · have hxz : x.toNat = z.toNat := h1e.trans h3
                have hnlt : ¬ x.toNat < z.toNat := by omega
                simp only [h3, if_true, if_pos] at hbc
                simp [hnlt, hxz, ih ys zs hab hbc]
              · simp [h2, h3] at hbc
          · simp [h1, h1e] at hab

theorem strLe_total (a b : String) : strLe a b = true ∨ strLe b a = true :=
  charListLe_total a.data b.data

theorem strLe_trans {a b c : String} (h1 : strLe a b = true) (h2 : strLe b c = true) :
    strLe a c = true :=
  charListLe_trans a.data b.data c.data h1 h2

/-!
A stable sort, standing in for the Python list.sort method.  Python sorts
stably by the computed key; stable insertion sort realises the same contract,
and is structurally recursive so concrete runs reduce inside the kernel.
-/

/-- Insert an element in front of the first member that it sorts
less-or-equal to. -/
def orderedInsert (le : α → α → Bool) (a : α) : List α → List α
  | [] => [a]
  | b :: l => if le a b then a :: b :: l else b :: orderedInsert le a l

/-- Stable sort through repeated insertion; the model of list.sort. -/
def pySort (le : α → α → Bool) : List α → List α
  | [] => []
  | a :: l => orderedInsert le a (pySort le l)

theorem mem_orderedInsert (le : α → α → Bool) (a x : α) (l : List α) :
    x ∈ orderedInsert le a l ↔ x = a ∨ x ∈ l := by
  induction l with
  | nil => simp [orderedInsert]
  | cons b l ih =>
    cases hab : le a b
    · simp only [orderedInsert, hab, Bool.false_eq_true, if_false, List.mem_cons, ih]
      tauto
    · simp only [orderedInsert, hab, if_true, List.mem_cons]

theorem perm_orderedInsert (le : α → α → Bool) (a : α) (l : List α) :
    List.Perm (orderedInsert le a l) (a :: l) := by
  induction l with
  | nil => exact List.Perm.refl _
  | cons b l ih =>
    cases hab : le a b
    · simp only [orderedInsert, hab, Bool.false_eq_true, if_false]
      exact (ih.cons b).trans (List.Perm.swap a b l)
    · simp only [orderedInsert, hab, if_true]
      exact List.Perm.refl _

theorem perm_pySort (le : α → α → Bool) (l : List α) : List.Perm (pySort le l) l := by
  induction l with
  | nil => exact List.Perm.refl _
  | cons a l ih =>
    exact (perm_orderedInsert le a (pySort le l)).trans (ih.cons a)

theorem pairwise_orderedInsert (le : α → α → Bool)
    (htrans : ∀ a b c, le a b = true → le b c = true → le a c = true)
    (htotal : ∀ a b, le a b = true ∨ le b a = true)
    (a : α) (l : List α) (h : l.Pairwise (fun x y => le x y = true)) :
    (orderedInsert le a l).Pairwise (fun x y => le x y = true) := by
  induction l with
  | nil => simp [orderedInsert]
  | cons b l ih =>
    rcases List.pairwise_cons.mp h with ⟨hb, hl⟩
    cases hab : le a b
    · have hba : le b a = true := by
        rcases htotal a b with h1 | h1
        · rw [hab] at h1; cases h1
        · exact h1
      simp only [orderedInsert, hab, Bool.false_eq_true, if_false]
      refine List.pairwise_cons.mpr ⟨?_, ih hl⟩
      intro x hx
      rcases (mem_orderedInsert le a x l).mp hx with rfl | hx
      · exact hba
      · exact hb x hx
    · simp only [orderedInsert, hab, if_true]
      refine List.pairwise_cons.mpr ⟨?_, h⟩
      intro x hx
      rcases List.mem_cons.mp hx with rfl | hx
      · exact hab
      · exact htrans a b x hab (hb x hx)

theorem pairwise_pySort (le : α → α → Bool)
    (htrans : ∀ a b c, le a b = true → le b c = true → le a c = true)
    (htotal : ∀ a b, le a b = true ∨ le b a = true)
    (l : List α) : (pySort le l).Pairwise (fun x y => le x y = true) := by
  induction l with
  | nil => simp [pySort]
  | cons a l ih => exact pairwise_orderedInsert le htrans htotal a (pySort le l) ih

/-!
Shared rendering model.  PIL is out of scope; an image is modelled as the
exact sequence of drawing commands issued on the fixed 240 by 240 canvas,
together with the canvas dimensions and which font set was loaded.  Pixel
identity of two renders follows from equality of these records.
-/

/-- The fonts the two scripts load (sizes as in the source). -/
inductive FontId where
  | headerF | routeF | destF | timeF | smallF | nextTimeF
  | titleF | taskF | labelF | dueF
  deriving DecidableEq, Repr

/-- One drawing command on the canvas. -/
inductive DrawOp where
  | rect (x0 y0 x1 y1 : Int) (fill : String)
  | textOp (x y : Int) (s : String) (color : String) (font : FontId)
  | lineOp (x0 y0 x1 y1 : Int) (color : String) (width : Nat)
  | ellipseFill (x0 y0 x1 y1 : Int) (fill : String) (outline : Option String)
  | ellipseOutline (x0 y0 x1 y1 : Int) (outline : String) (width : Nat)
  deriving DecidableEq, Repr

/-- The ambient state a render call observes: the wall-clock string the
header shows, whether the truetype fonts loaded (the except branch falls
back to the built-in font), and the text-metrics oracle behind
draw.textbbox. -/
structure RenderEnv where
  nowStr : String
  fontsOk : Bool
  measure : FontId → String → Nat

/-- A completed render: canvas size, font set used, and the command list. -/
structure RenderedImage where
  width : Nat
  height : Nat
  usedDefaultFonts : Bool
  ops : List DrawOp
  deriving DecidableEq, Repr

/-- The text strings an op list draws, in order. -/
def textsOf (ops : List DrawOp) : List String :=
  ops.filterMap (fun op =>
    match op with
    | .textOp _ _ s _ _ => some s
    | _ => none)

namespace CMDepartures

def IMAGE_WIDTH : Int := 240
def IMAGE_HEIGHT : Int := 240
def BG_COLOR : String := "#000000"
def HEADER_COLOR : String := "#1a1a1a"
def TEXT_COLOR : String := "#FFFFFF"
def ACCENT_COLOR : String := "#FFA500"
def GRID_COLOR : String := "#2a2a2a"
def MAX_BUSES : Nat := 4

/-!
datetime model.  The scripts call datetime.fromisoformat on the scheduled
timestamps, subtract the current UTC time from the result, and format it
with strftime %H:%M.  The parser below covers the timestamp shape the
Citymapper payload carries, YYYY-MM-DDTHH:MM:SS with an optional +HH:MM or
-HH:MM offset; any other shape is none, standing for the ValueError the
Python call raises.
-/

structure PyDateTime where
  year : Nat
  month : Nat
  day : Nat
  hour : Nat
  minute : Nat
  second : Nat
  /-- none models a naive datetime (no tzinfo). -/
  tzOffsetMinutes : Option Int
  deriving DecidableEq, Repr

/-- One decimal digit. -/
def dig (c : Char) : Option Nat :=
  if c.isDigit then some (c.toNat - 48) else none

def num2 (a b : Char) : Option Nat := do
  let x ← dig a
  let y ← dig b
  pure (10 * x + y)

def num4 (a b c d : Char) : Option Nat := do
  let x ← num2 a b
  let y ← num2 c d
  pure (100 * x + y)

def mkDateTime (y mo d h mi s : Nat) (tz : Option Int) : Option PyDateTime :=
  if 1 ≤ y ∧ 1 ≤ mo ∧ mo ≤ 12 ∧ 1 ≤ d ∧ d ≤ 31 ∧ h ≤ 23 ∧ mi ≤ 59 ∧ s ≤ 59 then
    some ⟨y, mo, d, h, mi, s, tz⟩
  else
    none

/-- datetime.fromisoformat on the payload timestamp shape. -/
def fromisoformat (str : String) : Option PyDateTime :=
  match str.data with
  | [y1, y2, y3, y4, '-', m1, m2, '-', d1, d2, 'T', h1, h2, ':', i1, i2, ':', s1, s2] => do
      let y ← num4 y1 y2 y3 y4
      let mo ← num2 m1 m2
      let d ← num2 d1 d2
      let h ← num2 h1 h2
      let mi ← num2 i1 i2
      let s ← num2 s1 s2
      mkDateTime y mo d h mi s none
  | [y1, y2, y3, y4, '-', m1, m2, '-', d1, d2, 'T', h1, h2, ':', i1, i2, ':', s1, s2,
     sg, o1, o2, ':', o3, o4] => do
      let y ← num4 y1 y2 y3 y4
      let mo ← num2 m1 m2
      let d ← num2 d1 d2
      let h ← num2 h1 h2
      let mi ← num2 i1 i2
      let s ← num2 s1 s2
      let oh ← num2 o1 o2
      let om ← num2 o3 o4
      if oh ≤ 23 ∧ om ≤ 59 then
        match sg with
        | '+' => mkDateTime y mo d h mi s (some ((oh : Int) * 60 + om))
        | '-' => mkDateTime y mo d h mi s (some (-((oh : Int) * 60 + om)))
        | _ => none
      else none
  | _ => none

/-- Days between a civil date and 1970-01-01 (proleptic Gregorian). -/
def daysFromCivil (y : Int) (m d : Nat) : Int :=
  let y : Int := if m ≤ 2 then y - 1 else y
  let era : Int := y.ediv 400
  let yoe : Int := y - era * 400
  let mp : Int := if 2 < m then (m : Int) - 3 else (m : Int) + 9
  let doy : Int := (153 * mp + 2).ediv 5 + (d : Int) - 1
  let doe : Int := yoe * 365 + yoe.ediv 4 - yoe.ediv 100 + doy
  era * 146097 + doe - 719468

/-- Seconds since the epoch of an offset-aware datetime; none for a naive
one, on which the aware subtraction in the source raises. -/
def toEpochSeconds (dt : PyDateTime) : Option Int :=
  match dt.tzOffsetMinutes with
  | none => none
  | some off =>
      some (daysFromCivil (dt.year : Int) dt.month dt.day * 86400
        + (dt.hour : Int) * 3600 + (dt.minute : Int) * 60 + (dt.second : Int)
        - off * 60)

/-- strftime with the %H:%M format. -/
def formatHM (dt : PyDateTime) : String := pad2 dt.hour ++ ":" ++ pad2 dt.minute

/-!
The payload model: the parsed JSON shape the script reads.  Optional fields
model dictionary keys the code accesses through dict.get.
-/

structure Route where
  id : String
  name : Option String
  color : Option String
  text_color : Option String
  deriving DecidableEq, Repr

structure Service where
  route_id : String
  headsign : Option String
  live_departures_seconds : Option (List Int)
  next_departures : Option (List String)
  deriving DecidableEq, Repr

structure Stop where
  services : Option (List Service)
  routes : Option (List Route)
  deriving DecidableEq, Repr

structure TransitPayload where
  stops : Option (List Stop)
  deriving DecidableEq, Repr

/-- The normalized display row the parser builds. -/
structure DepartureInfo where
  route_name : String
  headsign : String
  color : String
  text_color : String
  time_text : String
  is_live : Bool
  additional_times : Option String
  sort_key : Int
  deriving DecidableEq, Repr

/-- The route-id lookup built by the dict comprehension; a later route with
the same id overwrites an earlier one. -/
def findRoute (routes : List Route) (rid : String) : Option Route :=
  routes.reverse.find? (fun r => r.id == rid)

/-- The four fields the loop body fills in before examining departures. -/
structure BaseInfo where
  route_name : String
  headsign : String
  color : String
  text_color : String
  deriving DecidableEq, Repr

def baseInfo (routes : List Route) (service : Service) : BaseInfo :=
  let route := findRoute routes service.route_id
  { route_name := (route.bind Route.name).getD "???"
    headsign := service.headsign.getD ""
    color := (route.bind Route.color).getD "#888888"
    text_color := (route.bind Route.text_color).getD "#FFFFFF" }

/-- The loop that formats next_departures indices 1 and 2 as HH:MM. -/
def collectAdditional (rest : List String) : Option (List String) :=
  (rest.take 2).mapM (fun s => (fromisoformat s).map formatHM)

/-- One iteration of the service loop.  some none is the continue branch
(no live and no scheduled data); none is an uncaught exception from
fromisoformat or from subtracting a naive datetime. -/
def parseService (routes : List Route) (now : Int) (service : Service) :
    Option (Option DepartureInfo) :=
  let base := baseInfo routes service
  match service.live_departures_seconds with
  | some (seconds :: _) =>
      some (some
        { route_name := base.route_name, headsign := base.headsign
          color := base.color, text_color := base.text_color
          time_text := toString (seconds.ediv 60) ++ " min"
          is_live := true, additional_times := none, sort_key := seconds })
  | _ =>
    match service.next_departures with
    | some (d0 :: rest) =>
        match fromisoformat d0 with
        | none => none
        | some next_dep =>
          match collectAdditional rest with
          | none => none
          | some addl =>
            match toEpochSeconds next_dep with
            | none => none
            | some ep =>
              some (some
                { route_name := base.route_name, headsign := base.headsign
                  color := base.color, text_color := base.text_color
                  time_text := formatHM next_dep
                  is_live := false
                  additional_times :=
                    if addl.isEmpty then none else some (String.intercalate ", " addl)
                  sort_key := ep - now })
    | _ => some none

/-- The service loop: appends the rows the iterations produce, skipping
continue iterations, and propagates an exception. -/
def processServices (routes : List Route) (now : Int) :
    List Service → Option (List DepartureInfo)
  | [] => some []
  | s :: rest =>
      match parseService routes now s with
      | none => none
      | some none => processServices routes now rest
      | some (some d) => (processServices routes now rest).map (fun l => d :: l)

/-- Comparison by the sort_key field, the key lambda of the sort call. -/
def depLe (a b : DepartureInfo) : Bool := decide (a.sort_key ≤ b.sort_key)

/-- parse_departures of cm_departures.py.  now is the current UTC time in
epoch seconds (datetime.now with timezone.utc). -/
def parse_departures (data : Option TransitPayload) (now : Int) :
    Option (List DepartureInfo) :=
  match data with
  | none => some []
  | some payload =>
      match payload.stops with
      | none => some []
      | some [] => some []
      | some (stop :: _) =>
          match processServices (stop.routes.getD []) now (stop.services.getD []) with
          | none => none
          | some departures => some ((pySort depLe departures).take MAX_BUSES)

/-- Truncation of the destination cell at the 11-character budget. -/
def truncDest (headsign : String) : String :=
  if 11 < headsign.length then pyTake headsign 10 ++ "." else headsign

/-- The fixed frame: header band, title, clock, separators and column
captions, drawn before any row. -/
def headerOps (env : RenderEnv) : List DrawOp :=
  [ .rect 0 0 IMAGE_WIDTH 28 HEADER_COLOR,
    .textOp 8 6 "DEPARTURES" TEXT_COLOR .headerF,
    .textOp (IMAGE_WIDTH - (env.measure .headerF env.nowStr : Int) - 8) 6
      env.nowStr "#888888" .headerF,
    .lineOp 0 28 IMAGE_WIDTH 28 GRID_COLOR 2,
    .textOp 8 32 "LINE" "#888888" .smallF,
    .textOp 65 32 "DESTINATION" "#888888" .smallF,
    .textOp 185 32 "TIME" "#888888" .smallF,
    .lineOp 0 45 IMAGE_WIDTH 45 GRID_COLOR 1 ]

/-- The commands one departure row issues (row index i, top at
y_offset = 50 + 47 i). -/
def rowOps (env : RenderEnv) (i : Nat) (dep : DepartureInfo) : List DrawOp :=
  let y_offset : Int := 50 + 47 * i
  let route_y : Int := y_offset + 8
  let dest_y : Int := route_y + 1
  let time_x : Int := IMAGE_WIDTH - (env.measure .timeF dep.time_text : Int) - 6
  let time_y : Int := route_y + 1
  (if i % 2 == 1 then
    [DrawOp.rect 0 (y_offset - 2) IMAGE_WIDTH (y_offset + 47 - 2) "#0a0a0a"]
  else [])
  ++ [DrawOp.rect 8 (route_y - 2) (8 + 4) (route_y + 30) dep.color,
      DrawOp.textOp (8 + 4 + 6) route_y dep.route_name TEXT_COLOR .routeF,
      DrawOp.textOp 80 dest_y (truncDest dep.headsign) "#CCCCCC" .destF]
  ++ (match dep.additional_times with
      | some ts => [DrawOp.textOp 80 (dest_y + 15) ts "#999999" .nextTimeF]
      | none => [])
  ++ [DrawOp.textOp time_x time_y dep.time_text
        (if dep.is_live then ACCENT_COLOR else TEXT_COLOR) .timeF]
  ++ (if dep.is_live then
        [DrawOp.ellipseFill (time_x - 10) (time_y + 10) (time_x - 10 + 6) (time_y + 10 + 6)
          ACCENT_COLOR none]
      else [])
  ++ (if i < MAX_BUSES - 1 then
        [DrawOp.lineOp 8 (y_offset + 47 - 2) (IMAGE_WIDTH - 8) (y_offset + 47 - 2)
          GRID_COLOR 1]
      else [])

/-- create_display_image of cm_departures.py: the image and the path the
file is saved to. -/
def create_display_image (departures : List DepartureInfo) (env : RenderEnv)
    (output_path : String := "departures.jpg") : RenderedImage × String :=
  ({ width := 240, height := 240, usedDefaultFonts := !env.fontsOk
     ops := headerOps env
       ++ (departures.take MAX_BUSES).enum.flatMap (fun p => rowOps env p.1 p.2) },
   output_path)

end CMDepartures

namespace TodoistToday

def IMAGE_WIDTH : Int := 240
def IMAGE_HEIGHT : Int := 240
def BG_COLOR : String := "#1a1a1a"
def TEXT_COLOR : String := "#ffffff"
def MAX_TASKS : Nat := 6

/-- The PRIORITY_COLORS dictionary. -/
def PRIORITY_COLORS (p : Int) : Option String :=
  if p = 4 then some "#d1453b"
  else if p = 3 then some "#eb8909"
  else if p = 2 then some "#4073ff"
  else if p = 1 then some "#808080"
  else none

def ACCENT_COLOR : String := "#de4c4a"
def COMPLETED_COLOR : String := "#6b6b6b"
def BORDER_COLOR : String := "#2a2a2a"

/-- The due dictionary of an active task; only its string key is read. -/
structure Due where
  string : Option String
  deriving DecidableEq, Repr

/-- One element of the active list.  Optional fields are the keys the code
reads through dict.get.  A due of none covers both an absent due key and a
present empty dictionary: the two are indistinguishable to the code, which
only tests the dictionary for truthiness. -/
structure ActiveTask where
  content : Option String
  priority : Option Int
  project_id : Option String
  due : Option Due
  labels : Option (List String)
  deriving DecidableEq, Repr

/-- One element of the completed items list; entries that are not
dictionaries are represented by nonDict and skipped by the code. -/
inductive CompletedItem where
  | dict (content : Option String) (project_id : Option String)
  | nonDict
  deriving DecidableEq, Repr

/-- The dictionary returned by fetch_today_tasks. -/
structure TasksData where
  active : Option (List ActiveTask)
  completed : Option (List CompletedItem)
  deriving DecidableEq, Repr

/-- The normalized task row. -/
structure TaskInfo where
  content : String
  priority : Int
  project_id : String
  due_text : String
  labels : List String
  completed : Bool
  sort_key : Nat × Int × String
  deriving DecidableEq, Repr

/-- The active-task loop body. -/
def parseActive (task : ActiveTask) : TaskInfo :=
  let content := task.content.getD "Untitled Task"
  let priority := task.priority.getD 1
  let due_text :=
    match task.due with
    | some d =>
        match d.string with
        | some s => if s = "" then "Today" else s
        | none => "Today"
    | none => "Today"
  { content := content, priority := priority
    project_id := task.project_id.getD ""
    due_text := due_text
    labels := task.labels.getD []
    completed := false
    sort_key := (0, 5 - priority, pyLower content) }

/-- The completed-item loop body; non-dictionary items produce nothing. -/
def parseCompletedItem (item : CompletedItem) : Option TaskInfo :=
  match item with
  | .nonDict => none
  | .dict content project_id =>
      some
        { content := content.getD "Untitled Task", priority := 1
          project_id := project_id.getD ""
          due_text := "Completed", labels := [], completed := true
          sort_key := (1, 0, pyLower (content.getD "")) }

/-- Lexicographic comparison of the (group, priority rank, lowercased
content) sort-key tuples, as Python compares tuples. -/
def tripleLe (a b : Nat × Int × String) : Bool :=
  if a.1 < b.1 then true
  else if a.1 = b.1 then
    (if a.2.1 < b.2.1 then true
     else if a.2.1 = b.2.1 then strLe a.2.2 b.2.2
     else false)
  else false

/-- Comparison by the sort_key field, the key lambda of the sort call. -/
def taskLe (a b : TaskInfo) : Bool := tripleLe a.sort_key b.sort_key

/-- parse_tasks of todoist_today.py. -/
def parse_tasks (tasks_data : Option TasksData) : List TaskInfo :=
  match tasks_data with
  | none => []
  | some td =>
      let active_tasks := td.active.getD []
      let completed_tasks := td.completed.getD []
      let parsed_tasks :=
        active_tasks.map parseActive ++ completed_tasks.filterMap parseCompletedItem
      (pySort taskLe parsed_tasks).take MAX_TASKS

/-- Truncation of the task text at the 26-character budget. -/
def truncTask (content : String) : String :=
  if 26 < content.length then pyTake content 23 ++ "..." else content

/-- The count caption under the title. -/
def taskCountText (tasks : List TaskInfo) : String :=
  let active_count := (tasks.filter (fun t => !t.completed)).length
  let completed_count := (tasks.filter (fun t => t.completed)).length
  if 0 < completed_count then
    toString active_count ++ " active · " ++ toString completed_count ++ " completed"
  else
    toString active_count ++ " tasks"

/-- The commands one task row issues (row index i, top at
y_offset = 58 + 36 i; total is the length of the full list passed to the
renderer, which the separator condition consults). -/
def taskRowOps (env : RenderEnv) (total : Nat) (i : Nat) (task : TaskInfo) :
    List DrawOp :=
  let y_offset : Int := 58 + 36 * i
  let checkbox_y : Int := y_offset + 2
  let content_y : Int := checkbox_y
  let txt := truncTask task.content
  (if task.completed then
    [DrawOp.ellipseFill 12 checkbox_y (12 + 16) (checkbox_y + 16)
       COMPLETED_COLOR (some COMPLETED_COLOR),
     DrawOp.lineOp (12 + 4) (checkbox_y + 8) (12 + 7) (checkbox_y + 11) "#ffffff" 2,
     DrawOp.lineOp (12 + 7) (checkbox_y + 11) (12 + 12) (checkbox_y + 5) "#ffffff" 2]
  else
    [DrawOp.ellipseOutline 12 checkbox_y (12 + 16) (checkbox_y + 16)
       ((PRIORITY_COLORS task.priority).getD "#808080") 2])
  ++ [DrawOp.textOp 38 content_y txt
        (if task.completed then COMPLETED_COLOR else TEXT_COLOR) .taskF]
  ++ (if task.completed then
        [DrawOp.lineOp 38 (content_y + 8) (38 + (env.measure .taskF txt : Int))
           (content_y + 8) COMPLETED_COLOR 1]
      else [])
  ++ (if task.completed = false ∧ task.due_text ≠ "" then
        [DrawOp.textOp 38 (content_y + 18) task.due_text "#666666" .dueF]
      else [])
  ++ (if i < total - 1 then
        [DrawOp.lineOp 12 (y_offset + 36 - 2) 228 (y_offset + 36 - 2) BORDER_COLOR 1]
      else [])

/-- create_display_image of todoist_today.py. -/
def create_display_image (tasks : List TaskInfo) (env : RenderEnv)
    (output_path : String := "todoist_today.jpg") : RenderedImage × String :=
  ({ width := 240, height := 240, usedDefaultFonts := !env.fontsOk
     ops :=
       [DrawOp.textOp 12 10 "Today" ACCENT_COLOR .titleF,
        DrawOp.textOp 12 30 (taskCountText tasks) "#888888" .labelF,
        DrawOp.lineOp 0 50 IMAGE_WIDTH 50 BORDER_COLOR 1]
       ++ (tasks.take MAX_TASKS).enum.flatMap (fun p => taskRowOps env tasks.length p.1 p.2)
       ++ (if tasks.length = 0 then
             [DrawOp.textOp (240 / 2 - 70) (240 / 2 - 10) "All done for today! ✨"
                ACCENT_COLOR .taskF]
           else []) },
   output_path)

end TodoistToday

namespace Upload

def IMAGE_FILE : String := "departures.jpg"

/-- The world upload.py runs against: the configured device endpoint and
directory, the filesystem (os.path.exists), and the outcome of the one
requests.post call, none standing for a connection-level RequestException
and some s for a response with HTTP status s. -/
structure Env where
  deviceUrl : String
  uploadDir : String
  fileExists : String → Bool
  postStatus : Option Nat

def uploadUrl (env : Env) : String := env.deviceUrl ++ "?dir=" ++ env.uploadDir

/-- upload_image: the returned boolean and the list of POST requests
actually issued. -/
def upload_image (env : Env) (image_path : String := IMAGE_FILE) :
    Bool × List String :=
  if env.fileExists image_path = false then (false, [])
  else
    match env.postStatus with
    | none => (false, [uploadUrl env])
    | some status =>
        if 400 ≤ status ∧ status < 600 then (false, [uploadUrl env])
        else (true, [uploadUrl env])

/-- sys.argv 1 when present, the default file name otherwise. -/
def mainPath (argv : List String) : String :=
  match argv.drop 1 with
  | p :: _ => p
  | [] => IMAGE_FILE

/-- main: picks argv 1 or the default path, uploads, and exits 0 on success
and 1 on failure.  The first component is the process exit code. -/
def main (env : Env) (argv : List String) : Nat × List String :=
  let r := upload_image env (mainPath argv)
  (if r.1 then 0 else 1, r.2)

end Upload

/-!
Order-theoretic facts about the two sort keys.
-/

theorem depLe_trans (a b c : CMDepartures.DepartureInfo)
    (h1 : CMDepartures.depLe a b = true) (h2 : CMDepartures.depLe b c = true) :
    CMDepartures.depLe a c = true := by
  simp only [CMDepartures.depLe, decide_eq_true_eq] at h1 h2 ⊢
  omega

theorem depLe_total (a b : CMDepartures.DepartureInfo) :
    CMDepartures.depLe a b = true ∨ CMDepartures.depLe b a = true := by
  simp only [CMDepartures.depLe, decide_eq_true_eq]
  omega

theorem tripleLe_trans {a b c : Nat × Int × String}
    (h1 : TodoistToday.tripleLe a b = true) (h2 : TodoistToday.tripleLe b c = true) :
    TodoistToday.tripleLe a c = true := by
  obtain ⟨a1, a2, a3⟩ := a
  obtain ⟨b1, b2, b3⟩ := b
  obtain ⟨c1, c2, c3⟩ := c
  simp only [TodoistToday.tripleLe] at h1 h2 ⊢
  split_ifs at h1 h2 ⊢ <;>
    first
      | rfl
      | (exact strLe_trans h1 h2)
      | (exfalso; omega)

theorem tripleLe_total (a b : Nat × Int × String) :
    TodoistToday.tripleLe a b = true ∨ TodoistToday.tripleLe b a = true := by
  obtain ⟨a1, a2, a3⟩ := a
  obtain ⟨b1, b2, b3⟩ := b
  simp only [TodoistToday.tripleLe]
  rcases Nat.lt_trichotomy a1 b1 with h | h | h
  · left; simp [h]
  · subst h
    rcases Int.lt_trichotomy a2 b2 with h2 | h2 | h2
    · left; simp [h2]
    · subst h2
      rcases strLe_total a3 b3 with h3 | h3
      · left; simp [h3]
      · right; simp [h3]
    · right; simp [h2]
  · right; simp [h]

theorem taskLe_trans (a b c : TodoistToday.TaskInfo)
    (h1 : TodoistToday.taskLe a b = true) (h2 : TodoistToday.taskLe b c = true) :
    TodoistToday.taskLe a c = true :=
  tripleLe_trans h1 h2

theorem taskLe_total (a b : TodoistToday.TaskInfo) :
    TodoistToday.taskLe a b = true ∨ TodoistToday.taskLe b a = true :=
  tripleLe_total a.sort_key b.sort_key

/-- Claim C1: for every payload on which parse_departures completes, the
returned list has length at most 4 and is sorted ascending by sort_key
(live rows carry the raw seconds-until-departure, scheduled rows the
scheduled epoch time minus now, so both live on one numeric timeline). -/
theorem parse_departures_sorted_bounded (data : Option CMDepartures.TransitPayload)
    (now : Int) (rows : List CMDepartures.DepartureInfo)
    (h : CMDepartures.parse_departures data now = some rows) :
    rows.length ≤ 4 ∧ rows.Pairwise (fun a b => a.sort_key ≤ b.sort_key) := by
  have hrows : ∃ deps, rows = (pySort CMDepartures.depLe deps).take 4 ∨ rows = [] := by
    cases data with
    | none =>
        simp only [CMDepartures.parse_departures, Option.some.injEq] at h
        exact ⟨[], Or.inr h.symm⟩
    | some payload =>
        cases hst : payload.stops with
        | none =>
            simp only [CMDepartures.parse_departures, hst, Option.some.injEq] at h
            exact ⟨[], Or.inr h.symm⟩
        | some l =>
            cases l with
            | nil =>
                simp only [CMDepartures.parse_departures, hst, Option.some.injEq] at h
                exact ⟨[], Or.inr h.symm⟩
            | cons stop rest =>
                simp only [CMDepartures.parse_departures, hst] at h
                cases hps : CMDepartures.processServices (stop.routes.getD [])
                    now (stop.services.getD []) with
                | none => rw [hps] at h; cases h
                | some deps =>
                    rw [hps] at h
                    simp only [Option.some.injEq] at h
                    exact ⟨deps, Or.inl h.symm⟩
  obtain ⟨deps, hd | hd⟩ := hrows
  · subst hd
    refine ⟨List.length_take_le _ _, ?_⟩
    have hs := pairwise_pySort CMDepartures.depLe
      (fun a b c => depLe_trans a b c) depLe_total deps
    exact ((hs.sublist (List.take_sublist _ _)).imp
      (fun hab => by simpa [CMDepartures.depLe] using hab))
  · subst hd; exact ⟨by simp, by simp⟩

/-- A live service: two countdowns, 300 and 600 seconds. -/
def liveSvcW : CMDepartures.Service :=
  { route_id := "10", headsign := some "Centrum"
    live_departures_seconds := some [300, 600], next_departures := none }

/-- A scheduled service with a single timestamp. -/
def schedSvcW : CMDepartures.Service :=
  { route_id := "20", headsign := some "Airport"
    live_departures_seconds := none
    next_departures := some ["2024-01-01T08:15:00+00:00"] }

def routesW : List CMDepartures.Route :=
  [{ id := "10", name := some "10", color := some "#FF0000", text_color := some "#000000" }]

/-- A payload listing the scheduled service before the live one; the live
one departs sooner (300 s against 900 s) and must sort first. -/
def payloadW : CMDepartures.TransitPayload :=
  ⟨some [⟨some [schedSvcW, liveSvcW], some routesW⟩]⟩

def rowsW : List CMDepartures.DepartureInfo :=
  [{ route_name := "10", headsign := "Centrum", color := "#FF0000"
     text_color := "#000000", time_text := "5 min", is_live := true
     additional_times := none, sort_key := 300 },
   { route_name := "???", headsign := "Airport", color := "#888888"
     text_color := "#FFFFFF", time_text := "08:15", is_live := false
     additional_times := none, sort_key := 900 }]

/-- Witness for parse_departures_sorted_bounded: a concrete two-service
payload, normalized at now = 1704096000. -/
theorem parse_departures_sorted_bounded_witness :
    rowsW.length ≤ 4 ∧ rowsW.Pairwise (fun a b => a.sort_key ≤ b.sort_key) :=
  parse_departures_sorted_bounded (some payloadW) 1704096000 rowsW (by decide)

/-- The service of the spec scenario: two scheduled timestamps, no live
data. -/
def schedSvc2W : CMDepartures.Service :=
  { route_id := "r1", headsign := none, live_departures_seconds := none
    next_departures := some ["2024-01-01T08:15:00+00:00", "2024-01-01T08:30:00+00:00"] }

def payloadSchedW : CMDepartures.TransitPayload := ⟨some [⟨some [schedSvc2W], some []⟩]⟩

/-- Claim C5: a service with next_departures 08:15 and 08:30 (UTC) and no
live departures normalizes to time_text 08:15, with the index-1 timestamp
formatted as HH:MM into the additional-times sequence [08:30], stored
joined for the renderer. -/
theorem scheduled_times_scenario :
    CMDepartures.collectAdditional ["2024-01-01T08:30:00+00:00"] = some ["08:30"] ∧
    CMDepartures.parse_departures (some payloadSchedW) 1704000000 =
      some [{ route_name := "???", headsign := "", color := "#888888"
              text_color := "#FFFFFF", time_text := "08:15", is_live := false
              additional_times := some (String.intercalate ", " ["08:30"])
              sort_key := 96900 }] := by
  constructor
  · decide
  · decide

/-- A service with neither live nor scheduled data falls through to the
continue branch. -/
theorem parseService_skipped (routes : List CMDepartures.Route) (now : Int)
    (s : CMDepartures.Service)
    (hl : s.live_departures_seconds = none ∨ s.live_departures_seconds = some [])
    (hn : s.next_departures = none ∨ s.next_departures = some []) :
    CMDepartures.parseService routes now s = some none := by
  rcases hl with hl | hl <;> rcases hn with hn | hn <;>
    simp [CMDepartures.parseService, hl, hn]

/-- Dropping a continue-branch service anywhere in the list leaves the
loop output unchanged. -/
theorem processServices_skip (routes : List CMDepartures.Route) (now : Int)
    (s : CMDepartures.Service)
    (hs : CMDepartures.parseService routes now s = some none) :
    ∀ pre post : List CMDepartures.Service,
      CMDepartures.processServices routes now (pre ++ s :: post) =
        CMDepartures.processServices routes now (pre ++ post) := by
  intro pre
  induction pre with
  | nil => intro post; simp [CMDepartures.processServices, hs]
  | cons a pre ih =>
      intro post
      cases hpa : CMDepartures.parseService routes now a with
      | none => simp [CMDepartures.processServices, hpa]
      | some o =>
          cases o with
          | none => simp [CMDepartures.processServices, hpa, ih post]
          | some d => simp [CMDepartures.processServices, hpa, ih post]

/-- Claim C6: parse_departures returns the empty list, not a failure, for a
missing payload, a payload without stops, and an empty stops list; and a
service carrying neither live countdowns nor scheduled timestamps is
omitted from the output entirely, never defaulted into a row. -/
theorem parse_departures_defensive (now : Int) (routes : List CMDepartures.Route)
    (pre post : List CMDepartures.Service) (s : CMDepartures.Service)
    (stopsRest : List CMDepartures.Stop)
    (hl : s.live_departures_seconds = none ∨ s.live_departures_seconds = some [])
    (hn : s.next_departures = none ∨ s.next_departures = some []) :
    CMDepartures.parse_departures none now = some [] ∧
    CMDepartures.parse_departures (some ⟨none⟩) now = some [] ∧
    CMDepartures.parse_departures (some ⟨some []⟩) now = some [] ∧
    CMDepartures.parse_departures
        (some ⟨some (⟨some (pre ++ s :: post), some routes⟩ :: stopsRest)⟩) now =
      CMDepartures.parse_departures
        (some ⟨some (⟨some (pre ++ post), some routes⟩ :: stopsRest)⟩) now := by
  refine ⟨rfl, rfl, rfl, ?_⟩
  have hskip := processServices_skip routes now s
    (parseService_skipped routes now s hl hn) pre post
  simp [CMDepartures.parse_departures, hskip]

/-- A service with an empty live list and an absent scheduled list. -/
def emptySvcW : CMDepartures.Service :=
  { route_id := "30", headsign := some "Nowhere"
    live_departures_seconds := some [], next_departures := none }

/-- Witness for parse_departures_defensive: inserting the dataless service
in front of the live service changes nothing. -/
theorem parse_departures_defensive_witness :
    CMDepartures.parse_departures none 0 = some [] ∧
    CMDepartures.parse_departures (some ⟨none⟩) 0 = some [] ∧
    CMDepartures.parse_departures (some ⟨some []⟩) 0 = some [] ∧
    CMDepartures.parse_departures
        (some ⟨some (⟨some ([] ++ emptySvcW :: [liveSvcW]), some routesW⟩ :: [])⟩) 0 =
      CMDepartures.parse_departures
        (some ⟨some (⟨some ([] ++ [liveSvcW]), some routesW⟩ :: [])⟩) 0 :=
  parse_departures_defensive 0 routesW [] [liveSvcW] emptySvcW []
    (Or.inr rfl) (Or.inl rfl)

/-- tripleLe on two group-0 keys is the lexicographic tail comparison. -/
theorem tripleLe_zero {p q : Int} {s t : String}
    (h : TodoistToday.tripleLe (0, p, s) (0, q, t) = true) :
    p < q ∨ (p = q ∧ strLe s t = true) := by
  by_cases h1 : p < q
  · exact Or.inl h1
  · by_cases h2 : p = q
    · refine Or.inr ⟨h2, ?_⟩
      simpa [TodoistToday.tripleLe, h1, h2] using h
    · exfalso
      simp [TodoistToday.tripleLe, h1, h2] at h

/-- A group-1 key never sorts before a group-0 key. -/
theorem tripleLe_one_zero {p q : Int} {s t : String}
    (h : TodoistToday.tripleLe (1, p, s) (0, q, t) = true) : False := by
  simp [TodoistToday.tripleLe] at h

/-- tripleLe on two completed keys is the string comparison. -/
theorem tripleLe_one_one {s t : String}
    (h : TodoistToday.tripleLe (1, 0, s) (1, 0, t) = true) : strLe s t = true := by
  simpa [TodoistToday.tripleLe] using h

/-- Every row parse_tasks emits carries the sort key its loop assigned:
group 0 with the rank 5 - priority and the lowercased content for an
active row, group 1 with rank 0 for a completed row, whose string
component is the lowercased raw content (empty, not the Untitled Task
display default, when the item had no content key). -/
theorem mem_parse_tasks_shape (td : Option TodoistToday.TasksData)
    (x : TodoistToday.TaskInfo) (hx : x ∈ TodoistToday.parse_tasks td) :
    (x.completed = false → x.sort_key = (0, 5 - x.priority, pyLower x.content)) ∧
    (x.completed = true → x.sort_key.1 = 1 ∧ x.sort_key.2.1 = 0 ∧
      (x.sort_key.2.2 = pyLower x.content ∨
        (x.content = "Untitled Task" ∧ x.sort_key.2.2 = ""))) := by
  cases td with
  | none => simp [TodoistToday.parse_tasks] at hx
  | some td =>
      simp only [TodoistToday.parse_tasks] at hx
      have hx2 := List.take_subset _ _ hx
      have hx3 := (perm_pySort TodoistToday.taskLe _).mem_iff.mp hx2
      rcases List.mem_append.mp hx3 with hA | hC
      · obtain ⟨t, _, rfl⟩ := List.mem_map.mp hA
        refine ⟨fun _ => rfl, fun hc => ?_⟩
        simp [TodoistToday.parseActive] at hc
      · obtain ⟨item, _, hpc⟩ := List.mem_filterMap.mp hC
        cases item with
        | nonDict => simp [TodoistToday.parseCompletedItem] at hpc
        | dict content pid =>
            simp only [TodoistToday.parseCompletedItem, Option.some.injEq] at hpc
            subst hpc
            refine ⟨fun hc => by simp at hc, fun _ => ⟨rfl, rfl, ?_⟩⟩
            cases content with
            | none => exact Or.inr ⟨rfl, rfl⟩
            | some c => exact Or.inl rfl

/-- Claim C2 (amended): parse_tasks returns at most 6 rows; every active
row precedes every completed row; active rows descend by priority with
ties broken alphabetically by lowercased content; completed rows ascend by
their completion sort string, which is the lowercased raw content field —
an item missing the content key sorts as the empty string even though its
row displays Untitled Task. -/
theorem parse_tasks_grouped_sorted (td : Option TodoistToday.TasksData) :
    (TodoistToday.parse_tasks td).length ≤ 6 ∧
    (∀ x ∈ TodoistToday.parse_tasks td, x.completed = true →
      x.sort_key.2.2 = pyLower x.content ∨
        (x.content = "Untitled Task" ∧ x.sort_key.2.2 = "")) ∧
    (TodoistToday.parse_tasks td).Pairwise (fun a b =>
      (a.completed = true → b.completed = true) ∧
      (a.completed = false → b.completed = false →
        b.priority ≤ a.priority ∧
          (a.priority = b.priority →
            strLe (pyLower a.content) (pyLower b.content) = true)) ∧
      (a.completed = true → b.completed = true →
        strLe a.sort_key.2.2 b.sort_key.2.2 = true)) := by
  refine ⟨?_, ?_, ?_⟩
  · cases td with
    | none => simp [TodoistToday.parse_tasks]
    | some td =>
        simp only [TodoistToday.parse_tasks]
        exact List.length_take_le _ _
  · intro x hx hc
    exact ((mem_parse_tasks_shape td x hx).2 hc).2.2
  · have hp : (TodoistToday.parse_tasks td).Pairwise
        (fun a b => TodoistToday.taskLe a b = true) := by
      cases td with
      | none => simp [TodoistToday.parse_tasks]
      | some td =>
          simp only [TodoistToday.parse_tasks]
          exact (pairwise_pySort TodoistToday.taskLe taskLe_trans taskLe_total _).sublist
            (List.take_sublist _ _)
    refine hp.imp_of_mem ?_
    intro a b ha hb hab
    have hA := mem_parse_tasks_shape td a ha
    have hB := mem_parse_tasks_shape td b hb
    refine ⟨?_, ?_, ?_⟩
    · intro hac
      cases hbc : b.completed
      · exfalso
        have hkb := hB.1 hbc
        have hka : a.sort_key = (1, 0, a.sort_key.2.2) := by
          have h1 := (hA.2 hac).1
          have h2 := (hA.2 hac).2.1
          exact Prod.ext h1 (Prod.ext h2 rfl)
        rw [TodoistToday.taskLe, hka, hkb] at hab
        exact tripleLe_one_zero hab
      · rfl
    · intro haf hbf
      have hka := hA.1 haf
      have hkb := hB.1 hbf
      rw [TodoistToday.taskLe, hka, hkb] at hab
      rcases tripleLe_zero hab with h | ⟨he, hs⟩
      · exact ⟨by omega, fun hpe => by omega⟩
      · exact ⟨by omega, fun _ => hs⟩
    · intro hac hbc
      have hka : a.sort_key = (1, 0, a.sort_key.2.2) :=
        Prod.ext (hA.2 hac).1 (Prod.ext (hA.2 hac).2.1 rfl)
      have hkb : b.sort_key = (1, 0, b.sort_key.2.2) :=
        Prod.ext (hB.2 hbc).1 (Prod.ext (hB.2 hbc).2.1 rfl)
      rw [TodoistToday.taskLe, hka, hkb] at hab
      exact tripleLe_one_one hab

/-- A completed payload whose first item lacks the content key. -/
def tdCE : TodoistToday.TasksData :=
  { active := some []
    completed := some [TodoistToday.CompletedItem.dict none none,
                       TodoistToday.CompletedItem.dict (some "Alpha") none] }

/-- Counterexample to claim C2 as stated: with a completed item missing
its content key, the output lists the row displaying Untitled Task before
the row displaying Alpha, although untitled task is not alphabetically at
most alpha; completed rows are therefore not ordered alphabetically by
their lowercased (displayed) content. -/
theorem parse_tasks_completed_alpha_counterexample :
    (TodoistToday.parse_tasks (some tdCE)).map (fun t => t.content) =
        ["Untitled Task", "Alpha"] ∧
    (TodoistToday.parse_tasks (some tdCE)).map (fun t => t.completed) = [true, true] ∧
    strLe (pyLower "Untitled Task") (pyLower "Alpha") = false := by
  refine ⟨by decide, by decide, by decide⟩

/-- The first output row of the counterexample payload. -/
def rowUntitled : TodoistToday.TaskInfo :=
  { content := "Untitled Task", priority := 1, project_id := ""
    due_text := "Completed", labels := [], completed := true
    sort_key := (1, 0, "") }

/-- Witness for parse_tasks_grouped_sorted: the untitled completed row of
the counterexample payload satisfies the amended completion-key clause
through its second disjunct. -/
theorem parse_tasks_grouped_sorted_witness :
    rowUntitled.sort_key.2.2 = pyLower rowUntitled.content ∨
      (rowUntitled.content = "Untitled Task" ∧ rowUntitled.sort_key.2.2 = "") :=
  (parse_tasks_grouped_sorted (some tdCE)).2.1 rowUntitled (by decide) rfl

/-- A concrete render environment: frozen clock, loaded fonts, a simple
width oracle. -/
def envW : RenderEnv :=
  { nowStr := "12:00", fontsOk := true, measure := fun _ s => 6 * s.length }

/-- Counterexample to claim C3 as stated: the transit renderer called on
the empty row list yields only the fixed frame — its ops are exactly the
header ops, the texts it draws are the standard captions, and every one of
those texts is also drawn when rendering a nonempty list — so the image
carries no indication at all that there are no items. -/
theorem transit_empty_render_counterexample :
    (CMDepartures.create_display_image [] envW).1.ops = CMDepartures.headerOps envW ∧
    textsOf (CMDepartures.create_display_image [] envW).1.ops =
      ["DEPARTURES", "12:00", "LINE", "DESTINATION", "TIME"] ∧
    (∀ s ∈ textsOf (CMDepartures.create_display_image [] envW).1.ops,
        s ∈ textsOf (CMDepartures.create_display_image rowsW envW).1.ops) := by
  refine ⟨by decide, by decide, by decide⟩

/-- Claim C3 (amended): with an empty row list both renderers still return
a valid 240 by 240 image rather than crashing; the task renderer draws the
explicit all-done message, while the transit renderer draws only the fixed
frame, with no no-items indication. -/
theorem empty_render_amended (env : RenderEnv) (p q : String) :
    ((CMDepartures.create_display_image [] env p).1.width = 240 ∧
     (CMDepartures.create_display_image [] env p).1.height = 240 ∧
     (CMDepartures.create_display_image [] env p).1.ops = CMDepartures.headerOps env) ∧
    ((TodoistToday.create_display_image [] env q).1.width = 240 ∧
     (TodoistToday.create_display_image [] env q).1.height = 240 ∧
     DrawOp.textOp 50 110 "All done for today! ✨" TodoistToday.ACCENT_COLOR FontId.taskF
       ∈ (TodoistToday.create_display_image [] env q).1.ops) := by
  refine ⟨⟨rfl, rfl, ?_⟩, rfl, rfl, ?_⟩
  · simp [CMDepartures.create_display_image]
  · simp [TodoistToday.create_display_image]

/-- Claim C8: rendering is deterministic.  Both renderers are functions of
the row list and the frozen ambient data alone: two calls that agree on
the clock string, the font availability and the text metrics produce
identical images, whatever output paths they are asked to save to. -/
theorem render_deterministic (deps : List CMDepartures.DepartureInfo)
    (tasks : List TodoistToday.TaskInfo) (e1 e2 : RenderEnv) (p1 p2 q1 q2 : String)
    (hnow : e1.nowStr = e2.nowStr) (hfonts : e1.fontsOk = e2.fontsOk)
    (hmeasure : e1.measure = e2.measure) :
    (CMDepartures.create_display_image deps e1 p1).1 =
      (CMDepartures.create_display_image deps e2 p2).1 ∧
    (TodoistToday.create_display_image tasks e1 q1).1 =
      (TodoistToday.create_display_image tasks e2 q2).1 := by
  obtain ⟨n1, f1, m1⟩ := e1
  obtain ⟨n2, f2, m2⟩ := e2
  simp only at hnow hfonts hmeasure
  subst hnow; subst hfonts; subst hmeasure
  exact ⟨rfl, rfl⟩

/-- Witness for render_deterministic: the same frozen environment asked to
save to two different paths draws identical images. -/
theorem render_deterministic_witness :
    (CMDepartures.create_display_image rowsW envW "a.jpg").1 =
      (CMDepartures.create_display_image rowsW envW "b.jpg").1 ∧
    (TodoistToday.create_display_image [rowUntitled] envW "c.jpg").1 =
      (TodoistToday.create_display_image [rowUntitled] envW "d.jpg").1 :=
  render_deterministic rowsW [rowUntitled] envW envW "a.jpg" "b.jpg" "c.jpg" "d.jpg"
    rfl rfl rfl

/-- Claim C7: upload_image returns False and performs no POST when the
file does not exist; when the file exists and the POST comes back with a
non-error status it returns True after exactly one POST; and the process
exit code of main is 0 exactly when the upload returned True. -/
theorem upload_exit_contract (env : Upload.Env) (path : String) (argv : List String) :
    (env.fileExists path = false → Upload.upload_image env path = (false, [])) ∧
    (∀ s : Nat, env.fileExists path = true → env.postStatus = some s →
      ¬(400 ≤ s ∧ s < 600) →
      Upload.upload_image env path = (true, [Upload.uploadUrl env])) ∧
    ((Upload.main env argv).1 = 0 ↔
      (Upload.upload_image env (Upload.mainPath argv)).1 = true) := by
  refine ⟨?_, ?_, ?_⟩
  · intro h
    simp [Upload.upload_image, h]
  · intro s hex hst hok
    simp [Upload.upload_image, hex, hst, hok]
  · simp only [Upload.main]
    cases hr : (Upload.upload_image env (Upload.mainPath argv)).1 <;> simp [hr]

/-- A world with no files. -/
def envNoFile : Upload.Env :=
  { deviceUrl := "http://device.local/doUpload", uploadDir := "/image/"
    fileExists := fun _ => false, postStatus := some 200 }

/-- A world where departures.jpg exists and the device answers 200. -/
def envOkUpload : Upload.Env :=
  { deviceUrl := "http://device.local/doUpload", uploadDir := "/image/"
    fileExists := fun p => p == "departures.jpg", postStatus := some 200 }

/-- Witness for upload_exit_contract: a missing file yields False with no
request; an existing file with a 200 response yields True and exit code
0. -/
theorem upload_exit_contract_witness :
    Upload.upload_image envNoFile "missing.jpg" = (false, []) ∧
    Upload.upload_image envOkUpload "departures.jpg" =
      (true, [Upload.uploadUrl envOkUpload]) ∧
    (Upload.main envOkUpload []).1 = 0 :=
  ⟨(upload_exit_contract envNoFile "missing.jpg" []).1 rfl,
   (upload_exit_contract envOkUpload "departures.jpg" []).2.1 200 rfl rfl (by decide),
   ((upload_exit_contract envOkUpload "departures.jpg" []).2.2).mpr (by decide)⟩

/-- Every transit row draws its (truncated) destination text. -/
theorem destText_mem_rowOps (env : RenderEnv) (i : Nat)
    (dep : CMDepartures.DepartureInfo) :
    CMDepartures.truncDest dep.headsign ∈ textsOf (CMDepartures.rowOps env i dep) := by
  cases hp : i % 2 == 1 <;> cases hl : dep.is_live <;>
    cases hadd : dep.additional_times <;>
    by_cases hsep : i < CMDepartures.MAX_BUSES - 1 <;>
    simp [textsOf, CMDepartures.rowOps, hp, hl, hadd, hsep]

/-- Every task row draws its (truncated) content text. -/
theorem taskText_mem_taskRowOps (env : RenderEnv) (total i : Nat)
    (task : TodoistToday.TaskInfo) :
    TodoistToday.truncTask task.content ∈
      textsOf (TodoistToday.taskRowOps env total i task) := by
  cases hc : task.completed <;> by_cases hdue : task.due_text ≠ "" <;>
    by_cases hsep : i < total - 1 <;>
    simp [textsOf, TodoistToday.taskRowOps, hc, hdue, hsep]

/-- Claim C4: a destination longer than 11 characters renders as exactly
its first 10 characters followed by the truncation marker; a task content
longer than 26 characters renders as exactly its first 23 characters
followed by the ellipsis marker. -/
theorem renderer_truncation (s t : String) (env : RenderEnv)
    (i total j : Nat) (dep : CMDepartures.DepartureInfo)
    (task : TodoistToday.TaskInfo)
    (h1 : 11 < s.length) (h2 : 26 < t.length)
    (hd : dep.headsign = s) (ht : task.content = t) :
    CMDepartures.truncDest s = pyTake s 10 ++ "." ∧
    TodoistToday.truncTask t = pyTake t 23 ++ "..." ∧
    pyTake s 10 ++ "." ∈ textsOf (CMDepartures.rowOps env i dep) ∧
    pyTake t 23 ++ "..." ∈ textsOf (TodoistToday.taskRowOps env total j task) := by
  have hds : CMDepartures.truncDest s = pyTake s 10 ++ "." := by
    simp [CMDepartures.truncDest, h1]
  have hts : TodoistToday.truncTask t = pyTake t 23 ++ "..." := by
    simp [TodoistToday.truncTask, h2]
  refine ⟨hds, hts, ?_, ?_⟩
  · have hm := destText_mem_rowOps env i dep
    rw [hd, hds] at hm
    exact hm
  · have hm := taskText_mem_taskRowOps env total j task
    rw [ht, hts] at hm
    exact hm

/-- A long destination and a long task text for the truncation witness. -/
def depLongW : CMDepartures.DepartureInfo :=
  { route_name := "10", headsign := "Centrum Nauki Kopernik", color := "#FF0000"
    text_color := "#000000", time_text := "5 min", is_live := true
    additional_times := none, sort_key := 300 }

def taskLongW : TodoistToday.TaskInfo :=
  { content := "Przygotowac prezentacje na spotkanie", priority := 2
    project_id := "", due_text := "Today", labels := [], completed := false
    sort_key := (0, 3, pyLower "Przygotowac prezentacje na spotkanie") }

/-- Witness for renderer_truncation at a 22-character destination and a
36-character task text. -/
theorem renderer_truncation_witness :
    CMDepartures.truncDest "Centrum Nauki Kopernik" =
      pyTake "Centrum Nauki Kopernik" 10 ++ "." ∧
    TodoistToday.truncTask "Przygotowac prezentacje na spotkanie" =
      pyTake "Przygotowac prezentacje na spotkanie" 23 ++ "..." ∧
    pyTake "Centrum Nauki Kopernik" 10 ++ "." ∈
      textsOf (CMDepartures.rowOps envW 0 depLongW) ∧
    pyTake "Przygotowac prezentacje na spotkanie" 23 ++ "..." ∈
      textsOf (TodoistToday.taskRowOps envW 1 0 taskLongW) :=
  renderer_truncation "Centrum Nauki Kopernik" "Przygotowac prezentacje na spotkanie"
    envW 0 1 0 depLongW taskLongW (by decide) (by decide) rfl rfl

/-- Whatever departure branch built a row, its name and destination fields
are the ones the loop header filled in from the route lookup and the
headsign key. -/
theorem parseService_base (routes : List CMDepartures.Route) (now : Int)
    (service : CMDepartures.Service) (row : CMDepartures.DepartureInfo)
    (h : CMDepartures.parseService routes now service = some (some row)) :
    row.route_name = (CMDepartures.baseInfo routes service).route_name ∧
    row.headsign = (CMDepartures.baseInfo routes service).headsign := by
  simp only [CMDepartures.parseService] at h
  repeat' split at h
  all_goals
    first
      | (simp only [Option.some.injEq] at h; subst h; exact ⟨rfl, rfl⟩)
      | simp at h

/-- Claim C9: a service without a headsign key normalizes to a row whose
destination is the empty string — not a placeholder — so the renderer
draws an empty destination cell; the ??? placeholder is what a missing
route name yields. -/
theorem missing_headsign_empty_destination (routes : List CMDepartures.Route)
    (now : Int) (service : CMDepartures.Service) (row : CMDepartures.DepartureInfo)
    (env : RenderEnv) (i : Nat)
    (hhs : service.headsign = none)
    (hrow : CMDepartures.parseService routes now service = some (some row)) :
    row.headsign = "" ∧
    CMDepartures.truncDest row.headsign = "" ∧
    "" ∈ textsOf (CMDepartures.rowOps env i row) ∧
    ((CMDepartures.findRoute routes service.route_id).bind CMDepartures.Route.name = none →
      row.route_name = "???") := by
  obtain ⟨hrn, hhs2⟩ := parseService_base routes now service row hrow
  have h1 : row.headsign = "" := by
    rw [hhs2]
    simp [CMDepartures.baseInfo, hhs]
  have h2 : CMDepartures.truncDest row.headsign = "" := by
    rw [h1]
    simp [CMDepartures.truncDest]
  refine ⟨h1, h2, ?_, ?_⟩
  · have hm := destText_mem_rowOps env i row
    rwa [h2] at hm
  · intro hname
    rw [hrn]
    simp [CMDepartures.baseInfo, hname]

/-- The row the headsign-less scheduled service produces. -/
def rowSchedW : CMDepartures.DepartureInfo :=
  { route_name := "???", headsign := "", color := "#888888"
    text_color := "#FFFFFF", time_text := "08:15", is_live := false
    additional_times := some "08:30", sort_key := 96900 }

/-- Witness for missing_headsign_empty_destination: the scheduled service
of the scenario payload carries no headsign, and its route id is not in
the route list. -/
theorem missing_headsign_empty_destination_witness :
    rowSchedW.headsign = "" ∧
    CMDepartures.truncDest rowSchedW.headsign = "" ∧
    "" ∈ textsOf (CMDepartures.rowOps envW 0 rowSchedW) ∧
    ((CMDepartures.findRoute routesW schedSvc2W.route_id).bind CMDepartures.Route.name
        = none →
      rowSchedW.route_name = "???") :=
  missing_headsign_empty_destination routesW 1704000000 schedSvc2W rowSchedW envW 0
    rfl (by decide)

/-- Claim C10: an active task whose priority value is outside 1 to 4 still
renders a full row, with the checkbox outline drawn in the low-priority
gray, because the color dictionary lookup falls back to its default. -/
theorem unknown_priority_gray_checkbox (p : Int) (env : RenderEnv) (total i : Nat)
    (task : TodoistToday.TaskInfo)
    (hp : p < 1 ∨ 4 < p) (hact : task.completed = false) (hpri : task.priority = p) :
    (TodoistToday.PRIORITY_COLORS p).getD "#808080" = "#808080" ∧
    DrawOp.ellipseOutline 12 (58 + 36 * (i : Int) + 2) (12 + 16)
        (58 + 36 * (i : Int) + 2 + 16) "#808080" 2 ∈
      TodoistToday.taskRowOps env total i task ∧
    TodoistToday.truncTask task.content ∈
      textsOf (TodoistToday.taskRowOps env total i task) := by
  have h4 : p ≠ 4 := by omega
  have h3 : p ≠ 3 := by omega
  have h2 : p ≠ 2 := by omega
  have h1 : p ≠ 1 := by omega
  have hcol : TodoistToday.PRIORITY_COLORS p = none := by
    simp [TodoistToday.PRIORITY_COLORS, h4, h3, h2, h1]
  refine ⟨by simp [hcol], ?_, taskText_mem_taskRowOps env total i task⟩
  by_cases hdue : task.due_text ≠ "" <;> by_cases hsep : i < total - 1 <;>
    simp [TodoistToday.taskRowOps, hact, hdue, hsep, hpri, hcol]

/-- An active task with the out-of-range priority 9. -/
def taskP9W : TodoistToday.TaskInfo :=
  { content := "Water plants", priority := 9, project_id := ""
    due_text := "Today", labels := [], completed := false
    sort_key := (0, -4, pyLower "Water plants") }

/-- Witness for unknown_priority_gray_checkbox at priority 9. -/
theorem unknown_priority_gray_checkbox_witness :
    (TodoistToday.PRIORITY_COLORS 9).getD "#808080" = "#808080" ∧
    DrawOp.ellipseOutline 12 (58 + 36 * ((0 : Nat) : Int) + 2) (12 + 16)
        (58 + 36 * ((0 : Nat) : Int) + 2 + 16) "#808080" 2 ∈
      TodoistToday.taskRowOps envW 1 0 taskP9W ∧
    TodoistToday.truncTask taskP9W.content ∈
      textsOf (TodoistToday.taskRowOps envW 1 0 taskP9W) :=
  unknown_priority_gray_checkbox 9 envW 1 0 taskP9W (Or.inr (by decide)) rfl rfl
